import Mathlib

/-!
# DepartmentDatabase.cpp: a shallow embedding

The program is a menu-driven wrapper around one SQLite table,
`department(code INTEGER PRIMARY KEY AUTOINCREMENT, name TEXT NOT NULL, location TEXT NOT NULL)`.

* The five member functions of `class DepartmentDatabase` and `main` are translated
  statement by statement from `src/DepartmentDatabase.cpp`.
* The SQLite library is not part of the repository.  Its calls are modelled by the
  documented behaviour of the library on this one table: the result codes of `sqlite3.h`,
  rowid assignment under `AUTOINCREMENT`, the effect of the five SQL statements, and
  foreign keys of other tables that reference `department(code)`.  Failures of the
  engine that do not depend on the table (busy database, I/O error, ...) are an explicit
  input of every call (`Faults`).
* Output is a list of messages; every message carries the stream and the exact text the
  source writes.
* Text values stand for the content of the C strings handed to and returned by the
  engine (`name.c_str()` with length `-1`, `sqlite3_column_text`).
-/

namespace DepartmentDatabase

/-! ## Result codes of `sqlite3.h` -/

def SQLITE_OK : Nat := 0
def SQLITE_CONSTRAINT : Nat := 19
def SQLITE_FULL : Nat := 13
def SQLITE_ROW : Nat := 100
def SQLITE_DONE : Nat := 101

/-- Failures of the engine that are neither a constraint violation nor a normal
completion: `SQLITE_ERROR`, `SQLITE_BUSY`, `SQLITE_LOCKED`, `SQLITE_NOMEM`,
`SQLITE_READONLY`, `SQLITE_IOERR`, `SQLITE_CORRUPT`, `SQLITE_FULL`, `SQLITE_CANTOPEN`,
`SQLITE_NOTADB`. -/
inductive EngineError where
  | error
  | busy
  | locked
  | nomem
  | readonly
  | ioerr
  | corrupt
  | full
  | cantopen
  | notadb
deriving DecidableEq, Repr

/-- The numeric result code of an engine failure, as in `sqlite3.h`. -/
def EngineError.code : EngineError → Nat
  | .error => 1
  | .busy => 5
  | .locked => 6
  | .nomem => 7
  | .readonly => 8
  | .ioerr => 10
  | .corrupt => 11
  | .full => 13
  | .cantopen => 14
  | .notadb => 26

/-! ## Output -/

/-- The two output streams the program writes to. -/
inductive Stream where
  | cout
  | cerr
deriving DecidableEq, Repr

/-- Everything the program writes; `Msg.text` gives the characters and `Msg.stream` the
stream. -/
inductive Msg where
  | errorOpening
  | errorCreatingTable
  | inserted
  | errorInserting
  | errorPreparing
  | department (code : Int) (name location : String)
  | noDepartments
  | queried (count : Nat)
  | notFound
  | updated
  | deleted
  | referenced
  | menuOptions
  | menu0
  | menu1
  | menu2
  | menu3
  | menu4
  | menu5
  | promptOption
  | exiting
  | promptName
  | promptLocation
  | promptCode
  | promptUpdateCode
  | promptNewName
  | promptNewLocation
  | promptDeleteCode
  | rangeError
deriving DecidableEq, Repr

/-- The stream a message is written to. -/
def Msg.stream : Msg → Stream
  | .errorOpening => .cerr
  | .errorCreatingTable => .cerr
  | .errorInserting => .cerr
  | .errorPreparing => .cerr
  | .rangeError => .cerr
  | _ => .cout

/-- The characters of a message (without the line end). -/
def Msg.text : Msg → String
  | .errorOpening => "Error opening the database."
  | .errorCreatingTable => "Error creating the table in the database."
  | .inserted => "A department has been inserted into the database."
  | .errorInserting => "Error inserting the department."
  | .errorPreparing => "Error preparing the SQL statement."
  | .department code name location =>
      "Department [Code = " ++ toString code ++ ", Name = " ++ name
        ++ ", Location = " ++ location ++ "]"
  | .noDepartments => "No departments found in the database."
  | .queried count => "Queried " ++ toString count ++ " departments from the database."
  | .notFound => "No department with that code found in the database."
  | .updated => "A department in the database has been updated."
  | .deleted => "A department has been deleted from the database."
  | .referenced => "The department is referenced in one or more employees in the database."
  | .menuOptions => "Menu options:"
  | .menu0 => "0) Exit the program."
  | .menu1 => "1) Insert a department into the database."
  | .menu2 => "2) Retrieve all departments from the database."
  | .menu3 => "3) Retrieve a department by code from the database."
  | .menu4 => "4) Update a department by code in the database."
  | .menu5 => "5) Delete a department by code from the database."
  | .promptOption => "Enter an option: "
  | .exiting => "Exiting the program."
  | .promptName => "Enter the name of the department: "
  | .promptLocation => "Enter the location of the department: "
  | .promptCode => "Enter the code of the department: "
  | .promptUpdateCode => "Enter the code of the department to update: "
  | .promptNewName => "Enter the new name of the department: "
  | .promptNewLocation => "Enter the new location of the department: "
  | .promptDeleteCode => "Enter the code of the department to delete: "
  | .rangeError => "Menu option must be between 0 and 5."

/-! ## The store -/

/-- One row of table `department`. -/
structure Department where
  code : Int
  name : String
  location : String
deriving DecidableEq, Repr

/-- The database as the connection sees it.

* `rows`: the rows of `department`, in the order `SELECT *` returns them;
* `seq`: the entry of `department` in `sqlite_sequence`, the largest rowid that
  `AUTOINCREMENT` has recorded;
* `foreignKeys`: whether foreign keys are enforced on the connection
  (`PRAGMA foreign_keys`);
* `referenced`: the codes that rows of other tables reference through a foreign key on
  `department(code)` with the default action. -/
structure Store where
  rows : List Department
  seq : Int
  foreignKeys : Bool
  referenced : List Int
deriving DecidableEq, Repr

/-- The largest rowid SQLite can assign. -/
def maxRowid : Int := 9223372036854775807

/-- The largest of `seq` and the codes in the table. -/
def Store.maxCode (s : Store) : Int :=
  s.rows.foldl (fun m r => max m r.code) s.seq

/-- The rowid `AUTOINCREMENT` assigns to the next inserted row: one more than the largest
rowid the table holds or has recorded. -/
def Store.nextCode (s : Store) : Int := s.maxCode + 1

/-- Failures the engine injects in one call of a member function: `prepare` fails
`sqlite3_prepare_v2`; `step = some (k, e)` makes the `k`-th call of `sqlite3_step`
(counted from 0) on the statement fail with `e`. -/
structure Faults where
  prepare : Option EngineError
  step : Option (Nat × EngineError)
deriving DecidableEq, Repr

/-- A call in which the engine does not fail. -/
def Faults.none : Faults := ⟨Option.none, Option.none⟩

/-- The failure injected at the `k`-th step, if any. -/
def Faults.stepAt (f : Faults) (k : Nat) : Option EngineError :=
  match f.step with
  | some (i, e) => if i = k then some e else Option.none
  | Option.none => Option.none

/-! ## The engine calls the program makes -/

/-- Result code of `sqlite3_prepare_v2` on one of the five (well-formed) statements. -/
def sqlite3_prepare_v2 (f : Faults) : Nat :=
  match f.prepare with
  | some e => e.code
  | Option.none => SQLITE_OK

/-- The step of `INSERT INTO department (name, location) VALUES (?, ?)`: result code and
store afterwards.  The new row gets the next rowid; when no rowid is left the engine
answers `SQLITE_FULL`. -/
def stepInsert (s : Store) (f : Faults) (name location : String) : Nat × Store :=
  match f.stepAt 0 with
  | some e => (e.code, s)
  | Option.none =>
    if s.nextCode ≤ maxRowid then
      (SQLITE_DONE, { s with rows := s.rows ++ [⟨s.nextCode, name, location⟩], seq := s.nextCode })
    else (SQLITE_FULL, s)

/-- The `k`-th step of `SELECT * FROM department` with `pending` rows left under the
cursor: result code and the row produced. -/
def stepSelectAll (f : Faults) (k : Nat) (pending : List Department) : Nat × Option Department :=
  match f.stepAt k with
  | some e => (e.code, Option.none)
  | Option.none =>
    match pending with
    | [] => (SQLITE_DONE, Option.none)
    | r :: _ => (SQLITE_ROW, some r)

/-- The first step of `SELECT * FROM department WHERE code = ?`: result code and the row
produced. -/
def stepSelectByCode (s : Store) (f : Faults) (code : Int) : Nat × Option Department :=
  match f.stepAt 0 with
  | some e => (e.code, Option.none)
  | Option.none =>
    match s.rows.find? (fun r => r.code = code) with
    | some r => (SQLITE_ROW, some r)
    | Option.none => (SQLITE_DONE, Option.none)

/-- The step of `UPDATE department SET name = ?, location = ? WHERE code = ?`: every row
with that code gets the new name and location; the statement completes with
`SQLITE_DONE` whether or not a row matched. -/
def stepUpdate (s : Store) (f : Faults) (code : Int) (newName newLocation : String) : Nat × Store :=
  match f.stepAt 0 with
  | some e => (e.code, s)
  | Option.none =>
    (SQLITE_DONE,
      { s with rows := s.rows.map (fun r =>
          if r.code = code then { r with name := newName, location := newLocation } else r) })

/-- The step of `DELETE FROM department WHERE code = ?`: when foreign keys are enforced
and a row to delete is referenced from another table the engine rejects the statement
with `SQLITE_CONSTRAINT` and changes nothing; otherwise the rows with that code are
removed and the statement completes with `SQLITE_DONE`, whether or not a row matched. -/
def stepDelete (s : Store) (f : Faults) (code : Int) : Nat × Store :=
  match f.stepAt 0 with
  | some e => (e.code, s)
  | Option.none =>
    if s.foreignKeys ∧ code ∈ s.referenced ∧ (s.rows.any (fun r => r.code = code)) then
      (SQLITE_CONSTRAINT, s)
    else
      (SQLITE_DONE, { s with rows := s.rows.filter (fun r => r.code ≠ code) })

/-- Value of `sqlite3_column_int` on a 64-bit integer column: the low 32 bits, signed. -/
def sqlite3_column_int (v : Int) : Int := (v + 2147483648) % 4294967296 - 2147483648

/-! ## The member functions of `class DepartmentDatabase` -/

/-- Member function `DepartmentDatabase::insertDepartment` (lines 36-55). -/
def insertDepartment (s : Store) (f : Faults) (name location : String) : Store × List Msg :=
  if sqlite3_prepare_v2 f = SQLITE_OK then
    let r := stepInsert s f name location
    if r.1 = SQLITE_DONE then (r.2, [Msg.inserted])
    else (r.2, [Msg.errorInserting])
  else (s, [Msg.errorPreparing])

/-- The `while (sqlite3_step(statement) == SQLITE_ROW)` loop of `retrieveAllDepartments`
(lines 66-75): `pending` are the rows the cursor has not produced yet, `count` the
counter of the source, which is also the number of steps taken so far (an `int` in the
source, which a table of fewer than 2^31 rows does not overflow).  On an exhausted cursor
the step answers `SQLITE_DONE` or a failure, never `SQLITE_ROW`, and the loop ends. -/
def retrieveAllLoop (f : Faults) : List Department → Nat → Nat × List Msg
  | [], count => (count, [])
  | r :: rest, count =>
    if (stepSelectAll f count (r :: rest)).1 = SQLITE_ROW then
      let next := retrieveAllLoop f rest (count + 1)
      (next.1, Msg.department (sqlite3_column_int r.code) r.name r.location :: next.2)
    else (count, [])

/-- Member function `DepartmentDatabase::retrieveAllDepartments` (lines 58-87). -/
def retrieveAllDepartments (s : Store) (f : Faults) : Store × List Msg :=
  if sqlite3_prepare_v2 f = SQLITE_OK then
    let r := retrieveAllLoop f s.rows 0
    if r.1 = 0 then (s, r.2 ++ [Msg.noDepartments])
    else (s, r.2 ++ [Msg.queried r.1])
  else (s, [Msg.errorPreparing])

/-- Member function `DepartmentDatabase::retrieveDepartmentByCode` (lines 90-112).  The
line printed shows the argument `code` and columns 1 and 2 of the row the step produced
(a step that answers `SQLITE_ROW` always produces one). -/
def retrieveDepartmentByCode (s : Store) (f : Faults) (code : Int) : Store × List Msg :=
  if sqlite3_prepare_v2 f = SQLITE_OK then
    let r := stepSelectByCode s f code
    if r.1 = SQLITE_ROW then
      match r.2 with
      | some row => (s, [Msg.department code row.name row.location])
      | Option.none => (s, [])
    else (s, [Msg.notFound])
  else (s, [Msg.errorPreparing])

/-- Member function `DepartmentDatabase::updateDepartment` (lines 115-135). -/
def updateDepartment (s : Store) (f : Faults) (code : Int) (newName newLocation : String) :
    Store × List Msg :=
  if sqlite3_prepare_v2 f = SQLITE_OK then
    let r := stepUpdate s f code newName newLocation
    if r.1 = SQLITE_DONE then (r.2, [Msg.updated])
    else (r.2, [Msg.notFound])
  else (s, [Msg.errorPreparing])

/-- Member function `DepartmentDatabase::deleteDepartment` (lines 138-160). -/
def deleteDepartment (s : Store) (f : Faults) (code : Int) : Store × List Msg :=
  if sqlite3_prepare_v2 f = SQLITE_OK then
    let r := stepDelete s f code
    if r.1 = SQLITE_DONE then (r.2, [Msg.deleted])
    else if r.1 = SQLITE_CONSTRAINT then (r.2, [Msg.referenced])
    else (r.2, [Msg.notFound])
  else (s, [Msg.errorPreparing])

/-! ## Runs of member-function calls -/

/-- One call of a member function, with its arguments and the failures the engine injects
in it. -/
inductive Op where
  | insert (f : Faults) (name location : String)
  | retrieveAll (f : Faults)
  | retrieveByCode (f : Faults) (code : Int)
  | update (f : Faults) (code : Int) (newName newLocation : String)
  | delete (f : Faults) (code : Int)
deriving DecidableEq, Repr

/-- The call an `Op` stands for. -/
def Op.apply (s : Store) : Op → Store × List Msg
  | .insert f name location => insertDepartment s f name location
  | .retrieveAll f => retrieveAllDepartments s f
  | .retrieveByCode f code => retrieveDepartmentByCode s f code
  | .update f code newName newLocation => updateDepartment s f code newName newLocation
  | .delete f code => deleteDepartment s f code

/-- An item of standard input as `operator>>` extracts it: `int v` is an item read by an
extraction into an `int`, with value `v`; `word w` is an item read by an extraction into a
`std::string`, with characters `w`.  Input on which an extraction fails (a missing item,
an item that is not an integer of the range of `int`) is outside the model. -/
inductive Tok where
  | int (v : Int)
  | word (w : String)
deriving DecidableEq, Repr

/-- The values of the C++ type `int`. -/
def inRange (v : Int) : Prop := -2147483648 ≤ v ∧ v ≤ 2147483647

instance (v : Int) : Decidable (inRange v) := by
  unfold inRange
  exact inferInstance

/-- What happens during a run, in order: the calls of the engine that open and close the
connection, the calls of the member functions, and the messages written. -/
inductive Event where
  | sqlite3_open
  | sqlite3_exec
  | sqlite3_close
  | insertDepartment (name location : String)
  | retrieveAllDepartments
  | retrieveDepartmentByCode (code : Int)
  | updateDepartment (code : Int) (newName newLocation : String)
  | deleteDepartment (code : Int)
  | print (m : Msg)
deriving DecidableEq, Repr

/-- What the surroundings contribute to one run of the program: the content of
`personal.db` (`none` when it holds no table `department` yet), the failure of
`sqlite3_open` and of the `CREATE TABLE IF NOT EXISTS` statement if any, the failures the
engine injects in the successive calls of member functions, and standard input. -/
structure Env where
  file : Option Store
  openError : Option EngineError
  createError : Option EngineError
  faults : List Faults
  input : List Tok
deriving DecidableEq, Repr

/-- Result code of `sqlite3_open("personal.db", &db)`. -/
def sqlite3_open (env : Env) : Nat :=
  match env.openError with
  | some e => e.code
  | Option.none => SQLITE_OK

/-- Result code of `sqlite3_exec` on the `CREATE TABLE IF NOT EXISTS` statement. -/
def sqlite3_exec (env : Env) : Nat :=
  match env.createError with
  | some e => e.code
  | Option.none => SQLITE_OK

/-- The constructor `DepartmentDatabase::DepartmentDatabase` (lines 10-29): the events it
produces and either the store behind the open connection or the message of the
`std::runtime_error` it throws.  A table that did not exist is created empty; foreign keys
are off on a new connection. -/
def construct (env : Env) : List Event × Except String Store :=
  if sqlite3_open env ≠ SQLITE_OK then
    ([Event.sqlite3_open, Event.print Msg.errorOpening],
      Except.error "Failed to open the database.")
  else if sqlite3_exec env ≠ SQLITE_OK then
    ([Event.sqlite3_open, Event.sqlite3_exec, Event.print Msg.errorCreatingTable],
      Except.error "Failed to create the \x27department\x27 table.")
  else
    ([Event.sqlite3_open, Event.sqlite3_exec],
      Except.ok (env.file.getD ⟨[], 0, false, []⟩))

/-- The destructor `DepartmentDatabase::~DepartmentDatabase` (lines 31-33). -/
def destruct : List Event := [Event.sqlite3_close]

/-- The menu and the prompt written at the start of every iteration (lines 168-176). -/
def menuEvents : List Event :=
  [Event.print Msg.menuOptions, Event.print Msg.menu0, Event.print Msg.menu1,
   Event.print Msg.menu2, Event.print Msg.menu3, Event.print Msg.menu4,
   Event.print Msg.menu5, Event.print Msg.promptOption]

/-- Branch `case 1` of the switch (lines 184-194): events, store afterwards, failures
left for later calls. -/
def case1 (s : Store) (fs : List Faults) (name location : String) :
    List Event × Store × List Faults :=
  let r := insertDepartment s (fs.headD Faults.none) name location
  ([Event.print Msg.promptName, Event.print Msg.promptLocation,
    Event.insertDepartment name location] ++ r.2.map Event.print, r.1, fs.tail)

/-- Branch `case 2` of the switch (lines 196-198). -/
def case2 (s : Store) (fs : List Faults) : List Event × Store × List Faults :=
  let r := retrieveAllDepartments s (fs.headD Faults.none)
  ([Event.retrieveAllDepartments] ++ r.2.map Event.print, r.1, fs.tail)

/-- Branch `case 3` of the switch (lines 200-208). -/
def case3 (s : Store) (fs : List Faults) (code : Int) : List Event × Store × List Faults :=
  let r := retrieveDepartmentByCode s (fs.headD Faults.none) code
  ([Event.print Msg.promptCode, Event.retrieveDepartmentByCode code] ++ r.2.map Event.print,
    r.1, fs.tail)

/-- Branch `case 4` of the switch (lines 210-223). -/
def case4 (s : Store) (fs : List Faults) (code : Int) (newName newLocation : String) :
    List Event × Store × List Faults :=
  let r := updateDepartment s (fs.headD Faults.none) code newName newLocation
  ([Event.print Msg.promptUpdateCode, Event.print Msg.promptNewName,
    Event.print Msg.promptNewLocation, Event.updateDepartment code newName newLocation]
      ++ r.2.map Event.print, r.1, fs.tail)

/-- Branch `case 5` of the switch (lines 225-233). -/
def case5 (s : Store) (fs : List Faults) (code : Int) : List Event × Store × List Faults :=
  let r := deleteDepartment s (fs.headD Faults.none) code
  ([Event.print Msg.promptDeleteCode, Event.deleteDepartment code] ++ r.2.map Event.print,
    r.1, fs.tail)

/-- The events of one iteration followed by what the rest of the loop yields. -/
def andThen (r : List Event × Store × List Faults) (rest : Option (List Event × Store)) :
    Option (List Event × Store) :=
  rest.map (fun t => (menuEvents ++ r.1 ++ t.1, t.2))

/-- The extraction `std::cin >> v` into an `int`: the value read and the input left, `none`
when the next item is not an integer of the range of `int`. -/
def extractInt : List Tok → Option (Int × List Tok)
  | Tok.int v :: rest => if inRange v then some (v, rest) else Option.none
  | _ => Option.none

/-- The extraction `std::cin >> w` into a `std::string`: the word read and the input left. -/
def extractString : List Tok → Option (String × List Tok)
  | Tok.word w :: rest => some (w, rest)
  | _ => Option.none

set_option linter.unusedVariables false in
/-- The `do ... while (option != 0)` loop of `main` (lines 167-239) on the items of
standard input: the events it produces and the store it leaves when it ends, `none` when
an extraction fails (the input is then outside the model).  Every iteration reads the
option first and, inside its branch of the switch, the items that branch prompts for.
The recursion ends because every iteration takes at least one item from the input. -/
def menuLoop (toks : List Tok) (s : Store) (fs : List Faults) :
    Option (List Event × Store) :=
  match h : extractInt toks with
  | Option.none => Option.none
  | some (option, rest) =>
    if option = 0 then some (menuEvents ++ [Event.print Msg.exiting], s)
    else if option = 1 then
      match h1 : extractString rest with
      | Option.none => Option.none
      | some (name, rest1) =>
        match h2 : extractString rest1 with
        | Option.none => Option.none
        | some (location, rest2) =>
          andThen (case1 s fs name location)
            (menuLoop rest2 (case1 s fs name location).2.1 (case1 s fs name location).2.2)
    else if option = 2 then
      andThen (case2 s fs) (menuLoop rest (case2 s fs).2.1 (case2 s fs).2.2)
    else if option = 3 then
      match h1 : extractInt rest with
      | Option.none => Option.none
      | some (code, rest1) =>
        andThen (case3 s fs code)
          (menuLoop rest1 (case3 s fs code).2.1 (case3 s fs code).2.2)
    else if option = 4 then
      match h1 : extractInt rest with
      | Option.none => Option.none
      | some (code, rest1) =>
        match h2 : extractString rest1 with
        | Option.none => Option.none
        | some (newName, rest2) =>
          match h3 : extractString rest2 with
          | Option.none => Option.none
          | some (newLocation, rest3) =>
            andThen (case4 s fs code newName newLocation)
              (menuLoop rest3 (case4 s fs code newName newLocation).2.1
                (case4 s fs code newName newLocation).2.2)
    else if option = 5 then
      match h1 : extractInt rest with
      | Option.none => Option.none
      | some (code, rest1) =>
        andThen (case5 s fs code)
          (menuLoop rest1 (case5 s fs code).2.1 (case5 s fs code).2.2)
    else
      andThen ([Event.print Msg.rangeError], s, fs) (menuLoop rest s fs)
termination_by toks.length
decreasing_by
  all_goals simp_wf
  all_goals
    have lenInt : ∀ (l r : List Tok) (v : Int), extractInt l = some (v, r) →
        r.length < l.length := by
      intro l r v hl
      cases l with
      | nil => simp [extractInt] at hl
      | cons t tl =>
        cases t with
        | int w =>
          simp only [extractInt] at hl
          split at hl
          · simp only [Option.some.injEq, Prod.mk.injEq] at hl
            rw [← hl.2]; simp
          · simp at hl
        | word w => simp [extractInt] at hl
    have lenString : ∀ (l r : List Tok) (w : String), extractString l = some (w, r) →
        r.length < l.length := by
      intro l r w hl
      cases l with
      | nil => simp [extractString] at hl
      | cons t tl =>
        cases t with
        | int v => simp [extractString] at hl
        | word v =>
          simp only [extractString, Option.some.injEq, Prod.mk.injEq] at hl
          rw [← hl.2]; simp
    first
      | exact lenInt _ _ _ h
      | exact lt_trans (lenInt _ _ _ h1) (lenInt _ _ _ h)
      | exact lt_trans (lenString _ _ _ h2) (lt_trans (lenString _ _ _ h1) (lenInt _ _ _ h))
      | exact lt_trans (lenString _ _ _ h3)
          (lt_trans (lenString _ _ _ h2) (lt_trans (lenInt _ _ _ h1) (lenInt _ _ _ h)))

/-- How a run of the program ends: `main` returns a status, or the exception thrown by the
constructor leaves `main` uncaught and the program is terminated. -/
inductive Exit where
  | returned (status : Int)
  | uncaught (what : String)
deriving DecidableEq, Repr

/-- A finished run: how it ended and what happened, in order. -/
structure Run where
  exit : Exit
  events : List Event
deriving DecidableEq, Repr

/-- The function `main` (lines 163-242).  An exception thrown by the constructor is not
caught anywhere: the object was never constructed, so its destructor does not run.  When
the loop ends `main` returns 0 and the destructor of `departmentDatabase` runs. -/
def main (env : Env) : Option Run :=
  match construct env with
  | (evs, Except.error what) => some ⟨Exit.uncaught what, evs⟩
  | (evs, Except.ok store) =>
    match menuLoop env.input store env.faults with
    | Option.none => Option.none
    | some r => some ⟨Exit.returned 0, evs ++ r.1 ++ destruct⟩

/-! ## Well-formed input -/

/-- One complete menu selection other than exit, with the items its prompts read. -/
inductive Cmd where
  | insert (name location : String)
  | retrieveAll
  | retrieveByCode (code : Int)
  | update (code : Int) (newName newLocation : String)
  | delete (code : Int)
  | other (option : Int)
deriving DecidableEq, Repr

/-- The items of standard input that make up a selection. -/
def Cmd.tokens : Cmd → List Tok
  | .insert name location => [Tok.int 1, Tok.word name, Tok.word location]
  | .retrieveAll => [Tok.int 2]
  | .retrieveByCode code => [Tok.int 3, Tok.int code]
  | .update code newName newLocation =>
      [Tok.int 4, Tok.int code, Tok.word newName, Tok.word newLocation]
  | .delete code => [Tok.int 5, Tok.int code]
  | .other option => [Tok.int option]

/-- The integers of a selection are values of `int`, and `other` stands for an option
outside 0..5. -/
def Cmd.ok : Cmd → Prop
  | .insert _ _ => True
  | .retrieveAll => True
  | .retrieveByCode code => inRange code
  | .update code _ _ => inRange code
  | .delete code => inRange code
  | .other option => inRange option ∧ (option < 0 ∨ 5 < option)

instance (c : Cmd) : Decidable c.ok := by
  cases c <;> (unfold Cmd.ok; exact inferInstance)

/-- The branch of the switch a selection reaches. -/
def Cmd.step (s : Store) (fs : List Faults) : Cmd → List Event × Store × List Faults
  | .insert name location => case1 s fs name location
  | .retrieveAll => case2 s fs
  | .retrieveByCode code => case3 s fs code
  | .update code newName newLocation => case4 s fs code newName newLocation
  | .delete code => case5 s fs code
  | .other _ => ([Event.print Msg.rangeError], s, fs)

/-- The items of a sequence of selections. -/
def tokensOf : List Cmd → List Tok
  | [] => []
  | c :: cs => c.tokens ++ tokensOf cs

/-- The iterations a sequence of selections goes through, one after the other: the events,
the store and the failures left. -/
def runCmds : List Cmd → Store → List Faults → List Event × Store × List Faults
  | [], s, fs => ([], s, fs)
  | c :: cs, s, fs =>
    (menuEvents ++ (c.step s fs).1 ++ (runCmds cs (c.step s fs).2.1 (c.step s fs).2.2).1,
      (runCmds cs (c.step s fs).2.1 (c.step s fs).2.2).2)

/-- The events that are calls of member functions. -/
def Event.isOperation : Event → Bool
  | .insertDepartment _ _ => true
  | .retrieveAllDepartments => true
  | .retrieveDepartmentByCode _ => true
  | .updateDepartment _ _ _ => true
  | .deleteDepartment _ => true
  | _ => false

/-! ## Basic facts about the engine model -/

theorem EngineError.code_ne_ok (e : EngineError) : e.code ≠ SQLITE_OK := by
  cases e <;> decide

theorem EngineError.code_ne_done (e : EngineError) : e.code ≠ SQLITE_DONE := by
  cases e <;> decide

theorem EngineError.code_ne_row (e : EngineError) : e.code ≠ SQLITE_ROW := by
  cases e <;> decide

theorem EngineError.code_ne_constraint (e : EngineError) : e.code ≠ SQLITE_CONSTRAINT := by
  cases e <;> decide

theorem prepare_none : sqlite3_prepare_v2 Faults.none = SQLITE_OK := rfl

theorem stepAt_none (k : Nat) : Faults.none.stepAt k = Option.none := rfl

theorem stepAt_zero (p : Option EngineError) (e : EngineError) :
    (Faults.mk p (some (0, e))).stepAt 0 = some e := rfl

/-- An `UPDATE` that matches no row rewrites the table to itself. -/
theorem map_update_of_no_match (rows : List Department) (code : Int) (n l : String)
    (h : ∀ r ∈ rows, r.code ≠ code) :
    rows.map (fun r => if r.code = code then { r with name := n, location := l } else r)
      = rows := by
  induction rows with
  | nil => rfl
  | cons a t ih =>
    have ha : a.code ≠ code := h a (by simp)
    have ht : ∀ r ∈ t, r.code ≠ code := fun r hr => h r (by simp [hr])
    simp [ha, ih ht]

/-- A `DELETE` that matches no row leaves the table as it is. -/
theorem filter_delete_of_no_match (rows : List Department) (code : Int)
    (h : ∀ r ∈ rows, r.code ≠ code) :
    rows.filter (fun r => r.code ≠ code) = rows := by
  rw [List.filter_eq_self]
  intro r hr
  simpa using h r hr

theorem any_false_of_no_match (rows : List Department) (code : Int)
    (h : ∀ r ∈ rows, r.code ≠ code) :
    rows.any (fun r => r.code = code) = false := by
  simp only [List.any_eq_false, decide_eq_true_eq]
  exact h

/-- Fault-free `updateDepartment`, unfolded. -/
theorem updateDepartment_none (s : Store) (code : Int) (n l : String) :
    updateDepartment s Faults.none code n l
      = ({ s with rows := s.rows.map (fun r =>
            if r.code = code then { r with name := n, location := l } else r) },
         [Msg.updated]) := by
  simp [updateDepartment, stepUpdate, prepare_none, stepAt_none]

/-- Fault-free `deleteDepartment` on a store where the engine has no reason to reject. -/
theorem deleteDepartment_none_of_free (s : Store) (code : Int)
    (h : ¬ (s.foreignKeys = true ∧ code ∈ s.referenced ∧
            s.rows.any (fun r => r.code = code) = true)) :
    deleteDepartment s Faults.none code
      = ({ s with rows := s.rows.filter (fun r => r.code ≠ code) }, [Msg.deleted]) := by
  simp only [deleteDepartment, stepDelete, prepare_none, stepAt_none, if_true]
  rw [if_neg h]
  simp

/-- The rewriting an `UPDATE` performs on one row. -/
theorem updateRow_idem (code : Int) (n l : String) (r : Department) :
    (fun r : Department => if r.code = code then { r with name := n, location := l } else r)
      ((fun r : Department => if r.code = code then { r with name := n, location := l } else r) r)
    = (fun r : Department => if r.code = code then { r with name := n, location := l } else r) r := by
  by_cases h : r.code = code <;> simp [h]

/-- The store `updateDepartment` leaves is the store before, or the store with the rows
of that code rewritten. -/
theorem updateDepartment_store (s : Store) (f : Faults) (code : Int) (n l : String) :
    (updateDepartment s f code n l).1 = s ∨
    (f.prepare = Option.none ∧ f.stepAt 0 = Option.none ∧
      (updateDepartment s f code n l).1
        = { s with rows := s.rows.map (fun r =>
            if r.code = code then { r with name := n, location := l } else r) }) := by
  unfold updateDepartment sqlite3_prepare_v2 stepUpdate
  cases hp : f.prepare with
  | some e => left; simp [EngineError.code_ne_ok]
  | none =>
    cases hs : f.stepAt 0 with
    | some e => left; simp [EngineError.code_ne_done]
    | none => right; simp

/-! ## The claims about the member functions -/

/-- C1, what the code does: when `code` matches no row of the table and the engine does not
fail, `updateDepartment` leaves the store as it is and reports
"A department in the database has been updated." on `cout`; it does not report
"No department with that code found in the database.". -/
theorem updateDepartment_absent_code_reports_updated (s : Store) (code : Int)
    (newName newLocation : String) (h : ∀ r ∈ s.rows, r.code ≠ code) :
    updateDepartment s Faults.none code newName newLocation = (s, [Msg.updated])
      ∧ Msg.updated ≠ Msg.notFound ∧ Msg.updated.text ≠ Msg.notFound.text := by
  refine ⟨?_, by decide, by decide⟩
  rw [updateDepartment_none, map_update_of_no_match s.rows code newName newLocation h]

/-- Witness of `updateDepartment_absent_code_reports_updated`: `update(9999, "Eng", "Bldg B")`
on the empty table. -/
theorem updateDepartment_absent_code_reports_updated_witness :
    (∀ r ∈ (Store.mk [] 0 false []).rows, r.code ≠ 9999)
      ∧ updateDepartment (Store.mk [] 0 false []) Faults.none 9999 "Eng" "Bldg B"
          = (Store.mk [] 0 false [], [Msg.updated]) :=
  ⟨by simp,
   (updateDepartment_absent_code_reports_updated (Store.mk [] 0 false []) 9999 "Eng" "Bldg B"
      (by simp)).1⟩

/-- C2, what the code does: with an engine that does not fail, `deleteDepartment` on a code
that matches no row leaves the store as it is and reports
"A department has been deleted from the database."; in particular, when the code is not
referenced under enforced foreign keys, the first of two calls in a row removes the rows
of that code and reports "deleted", and the second call reports "deleted" again, not
"No department with that code found in the database.". -/
theorem deleteDepartment_absent_code_reports_deleted (s : Store) (code : Int) :
    ((∀ r ∈ s.rows, r.code ≠ code) →
        deleteDepartment s Faults.none code = (s, [Msg.deleted]))
    ∧ (¬ (s.foreignKeys = true ∧ code ∈ s.referenced) →
        (deleteDepartment s Faults.none code).2 = [Msg.deleted]
        ∧ (deleteDepartment s Faults.none code).1.rows
            = s.rows.filter (fun r => r.code ≠ code)
        ∧ (∀ r ∈ (deleteDepartment s Faults.none code).1.rows, r.code ≠ code)
        ∧ deleteDepartment (deleteDepartment s Faults.none code).1 Faults.none code
            = ((deleteDepartment s Faults.none code).1, [Msg.deleted]))
    ∧ Msg.deleted ≠ Msg.notFound ∧ Msg.deleted.text ≠ Msg.notFound.text := by
  have absent : ∀ t : Store, (∀ r ∈ t.rows, r.code ≠ code) →
      deleteDepartment t Faults.none code = (t, [Msg.deleted]) := by
    intro t h
    rw [deleteDepartment_none_of_free t code
      (by simp [any_false_of_no_match t.rows code h]),
      filter_delete_of_no_match t.rows code h]
  refine ⟨absent s, ?_, by decide, by decide⟩
  intro h
  have h1 := deleteDepartment_none_of_free s code (fun hh => h ⟨hh.1, hh.2.1⟩)
  have hno : ∀ r ∈ (deleteDepartment s Faults.none code).1.rows, r.code ≠ code := by
    intro r hr
    rw [h1] at hr
    simpa using (List.mem_filter.mp hr).2
  refine ⟨by rw [h1], by rw [h1], hno, absent _ hno⟩

/-- Witness of `deleteDepartment_absent_code_reports_deleted`: two deletions of code 1 from
a table that holds the row with code 1; both report "deleted". -/
theorem deleteDepartment_absent_code_reports_deleted_witness :
    ¬ ((Store.mk [⟨1, "Engineering", "Building A"⟩] 1 false []).foreignKeys = true
        ∧ (1 : Int) ∈ (Store.mk [⟨1, "Engineering", "Building A"⟩] 1 false []).referenced)
    ∧ (deleteDepartment (Store.mk [⟨1, "Engineering", "Building A"⟩] 1 false [])
          Faults.none 1).2 = [Msg.deleted]
    ∧ deleteDepartment
        (deleteDepartment (Store.mk [⟨1, "Engineering", "Building A"⟩] 1 false [])
          Faults.none 1).1 Faults.none 1
        = ((deleteDepartment (Store.mk [⟨1, "Engineering", "Building A"⟩] 1 false [])
            Faults.none 1).1, [Msg.deleted]) :=
  ⟨by simp,
   ((deleteDepartment_absent_code_reports_deleted
      (Store.mk [⟨1, "Engineering", "Building A"⟩] 1 false []) 1).2.1 (by simp)).1,
   ((deleteDepartment_absent_code_reports_deleted
      (Store.mk [⟨1, "Engineering", "Building A"⟩] 1 false []) 1).2.1 (by simp)).2.2.2⟩

/-- C4, what the code does: when the statement was prepared and its step fails with an
engine error `e` other than a constraint violation, `updateDepartment` and
`deleteDepartment` report "No department with that code found in the database." on
`cout`, the message of the not-found outcome, whereas `insertDepartment` reports
"Error inserting the department." on `cerr` for the same failure. -/
theorem step_failure_reported_as_notFound (s : Store) (e : EngineError) (code : Int)
    (newName newLocation : String) :
    updateDepartment s ⟨Option.none, some (0, e)⟩ code newName newLocation
        = (s, [Msg.notFound])
    ∧ deleteDepartment s ⟨Option.none, some (0, e)⟩ code = (s, [Msg.notFound])
    ∧ insertDepartment s ⟨Option.none, some (0, e)⟩ newName newLocation
        = (s, [Msg.errorInserting])
    ∧ Msg.notFound.stream = Stream.cout ∧ Msg.errorInserting.stream = Stream.cerr := by
  refine ⟨?_, ?_, ?_, rfl, rfl⟩
  · simp [updateDepartment, stepUpdate, sqlite3_prepare_v2, stepAt_zero,
      EngineError.code_ne_done]
  · simp [deleteDepartment, stepDelete, sqlite3_prepare_v2, stepAt_zero,
      EngineError.code_ne_done, EngineError.code_ne_constraint]
  · simp [insertDepartment, stepInsert, sqlite3_prepare_v2, stepAt_zero,
      EngineError.code_ne_done]

/-- C5, what the code does: when the first step of the `SELECT` fails with an engine error,
`retrieveAllDepartments` reports "No departments found in the database.", whatever rows
the table holds; on an empty table with an engine that does not fail it reports the same
message. -/
theorem retrieveAllDepartments_step_failure_reports_empty (s : Store) (e : EngineError) :
    retrieveAllDepartments s ⟨Option.none, some (0, e)⟩ = (s, [Msg.noDepartments])
    ∧ (s.rows = [] → retrieveAllDepartments s Faults.none = (s, [Msg.noDepartments])) := by
  constructor
  · cases hr : s.rows with
    | nil => simp [retrieveAllDepartments, retrieveAllLoop, sqlite3_prepare_v2, hr]
    | cons a t =>
      simp [retrieveAllDepartments, retrieveAllLoop, stepSelectAll, sqlite3_prepare_v2,
        stepAt_zero, EngineError.code_ne_row, hr]
  · intro hr
    simp [retrieveAllDepartments, retrieveAllLoop, prepare_none, hr]

/-- Witness of `retrieveAllDepartments_step_failure_reports_empty`: a table with one row,
`SQLITE_BUSY` at the first step, and the empty table. -/
theorem retrieveAllDepartments_step_failure_reports_empty_witness :
    retrieveAllDepartments (Store.mk [⟨1, "Engineering", "Building A"⟩] 1 false [])
        ⟨Option.none, some (0, EngineError.busy)⟩
      = (Store.mk [⟨1, "Engineering", "Building A"⟩] 1 false [], [Msg.noDepartments])
    ∧ retrieveAllDepartments (Store.mk [] 0 false []) Faults.none
      = (Store.mk [] 0 false [], [Msg.noDepartments]) :=
  ⟨(retrieveAllDepartments_step_failure_reports_empty
      (Store.mk [⟨1, "Engineering", "Building A"⟩] 1 false []) EngineError.busy).1,
   (retrieveAllDepartments_step_failure_reports_empty
      (Store.mk [] 0 false []) EngineError.busy).2 rfl⟩

/-- C7: when foreign keys are enforced, the table holds a row `r` with code `c` and `c` is
referenced from another table, `deleteDepartment c` (engine not failing otherwise)
reports "The department is referenced in one or more employees in the database.", which
is neither the "deleted" nor the not-found message, and leaves the whole store as it was:
`r` is still in the table and every row is unchanged. -/
theorem deleteDepartment_referenced (s : Store) (c : Int) (r : Department)
    (hfk : s.foreignKeys = true) (href : c ∈ s.referenced)
    (hr : r ∈ s.rows) (hc : r.code = c) :
    deleteDepartment s Faults.none c = (s, [Msg.referenced])
    ∧ r ∈ (deleteDepartment s Faults.none c).1.rows
    ∧ (deleteDepartment s Faults.none c).1.rows = s.rows
    ∧ Msg.referenced ≠ Msg.deleted ∧ Msg.referenced ≠ Msg.notFound
    ∧ Msg.referenced.text ≠ Msg.deleted.text
    ∧ Msg.referenced.text ≠ Msg.notFound.text := by
  have hany : s.rows.any (fun r => r.code = c) = true := by
    simp only [List.any_eq_true, decide_eq_true_eq]
    exact ⟨r, hr, hc⟩
  have h : deleteDepartment s Faults.none c = (s, [Msg.referenced]) := by
    simp only [deleteDepartment, stepDelete, prepare_none, stepAt_none, if_true]
    have hcond : s.foreignKeys = true ∧ c ∈ s.referenced ∧
        s.rows.any (fun r => r.code = c) = true := ⟨hfk, href, hany⟩
    rw [if_pos hcond]
    simp [SQLITE_CONSTRAINT, SQLITE_DONE]
  refine ⟨h, ?_, ?_, by decide, by decide, by decide, by decide⟩
  · rw [h]; exact hr
  · rw [h]

/-- Witness of `deleteDepartment_referenced`: department 1 is referenced by an employee. -/
theorem deleteDepartment_referenced_witness :
    deleteDepartment (Store.mk [⟨1, "Engineering", "Building A"⟩] 1 true [1]) Faults.none 1
      = (Store.mk [⟨1, "Engineering", "Building A"⟩] 1 true [1], [Msg.referenced]) :=
  (deleteDepartment_referenced (Store.mk [⟨1, "Engineering", "Building A"⟩] 1 true [1]) 1
    ⟨1, "Engineering", "Building A"⟩ rfl (by simp) (by simp) rfl).1

/-! ## Rowid assignment -/

/-- Fault-free `retrieveDepartmentByCode`, unfolded. -/
theorem retrieveDepartmentByCode_none (s : Store) (code : Int) :
    retrieveDepartmentByCode s Faults.none code
      = match s.rows.find? (fun r => r.code = code) with
        | some row => (s, [Msg.department code row.name row.location])
        | Option.none => (s, [Msg.notFound]) := by
  unfold retrieveDepartmentByCode stepSelectByCode
  rw [prepare_none, stepAt_none]
  cases h : s.rows.find? (fun r => r.code = code) <;> simp [SQLITE_ROW, SQLITE_DONE]

theorem retrieveDepartmentByCode_store (s : Store) (f : Faults) (code : Int) :
    (retrieveDepartmentByCode s f code).1 = s := by
  unfold retrieveDepartmentByCode
  split
  · dsimp only
    split
    · split <;> rfl
    · rfl
  · rfl

theorem updateDepartment_seq (s : Store) (f : Faults) (code : Int) (n l : String) :
    (updateDepartment s f code n l).1.seq = s.seq := by
  rcases updateDepartment_store s f code n l with h | ⟨_, _, h⟩ <;> rw [h]

/-- A second `UPDATE` with the same values finds nothing left to change. -/
theorem updateDepartment_after_update (s : Store) (f2 : Faults) (code : Int) (n l : String) :
    (updateDepartment
        { s with rows := s.rows.map (fun r =>
            if r.code = code then { r with name := n, location := l } else r) }
        f2 code n l).1
      = { s with rows := s.rows.map (fun r =>
            if r.code = code then { r with name := n, location := l } else r) } := by
  rcases updateDepartment_store
      { s with rows := s.rows.map (fun r =>
          if r.code = code then { r with name := n, location := l } else r) }
      f2 code n l with h | ⟨_, _, h⟩
  · exact h
  · rw [h]
    have hmm : (s.rows.map (fun r : Department =>
          if r.code = code then { r with name := n, location := l } else r)).map
          (fun r : Department =>
            if r.code = code then { r with name := n, location := l } else r)
        = s.rows.map (fun r : Department =>
            if r.code = code then { r with name := n, location := l } else r) := by
      rw [List.map_map]
      apply List.map_congr_left
      intro r _
      exact updateRow_idem code n l r
    simp only [hmm]

/-- C8: `updateDepartment(code, newName, newLocation)`, whatever the engine does, keeps the
code of every row (and the order of the rows), keeps every row whose code is not `code`
as it is, and keeps the rest of the store; running the identical call a second time
leaves the store exactly as the first call left it; and when the engine does not fail
every row with that code ends with `newName` and `newLocation`, a row with that code
being present afterwards when one was present before. -/
theorem updateDepartment_preserves_and_idempotent (s : Store) (f : Faults) (code : Int)
    (newName newLocation : String) :
    (updateDepartment s f code newName newLocation).1.rows.map (fun r => r.code)
        = s.rows.map (fun r => r.code)
    ∧ (∀ (i : Nat) (r : Department), s.rows[i]? = some r → r.code ≠ code →
        (updateDepartment s f code newName newLocation).1.rows[i]? = some r)
    ∧ (updateDepartment s f code newName newLocation).1.seq = s.seq
    ∧ (updateDepartment s f code newName newLocation).1.foreignKeys = s.foreignKeys
    ∧ (updateDepartment s f code newName newLocation).1.referenced = s.referenced
    ∧ (updateDepartment (updateDepartment s f code newName newLocation).1 f
          code newName newLocation).1
        = (updateDepartment s f code newName newLocation).1
    ∧ (∀ f2 : Faults,
        (updateDepartment (updateDepartment s Faults.none code newName newLocation).1 f2
            code newName newLocation).1
          = (updateDepartment s Faults.none code newName newLocation).1)
    ∧ (∀ r ∈ (updateDepartment s Faults.none code newName newLocation).1.rows,
        r.code = code → r.name = newName ∧ r.location = newLocation)
    ∧ ((∃ r ∈ s.rows, r.code = code) →
        ∃ r ∈ (updateDepartment s Faults.none code newName newLocation).1.rows,
          r.code = code ∧ r.name = newName ∧ r.location = newLocation) := by
  have hcodes : ∀ rows : List Department,
      (rows.map (fun r : Department =>
          if r.code = code then { r with name := newName, location := newLocation } else r)).map
        (fun r => r.code) = rows.map (fun r => r.code) := by
    intro rows
    rw [List.map_map]
    apply List.map_congr_left
    intro r _
    by_cases hc : r.code = code <;> simp [hc]
  have hnone := updateDepartment_none s code newName newLocation
  refine ⟨?_, ?_, ?_, ?_, ?_, ?_, ?_, ?_, ?_⟩
  · rcases updateDepartment_store s f code newName newLocation with h | ⟨_, _, h⟩
    · rw [h]
    · rw [h]; exact hcodes s.rows
  · intro i r hi hr
    rcases updateDepartment_store s f code newName newLocation with h | ⟨_, _, h⟩
    · rw [h]; exact hi
    · rw [h]
      simp [List.getElem?_map, hi, hr]
  · exact updateDepartment_seq s f code newName newLocation
  · rcases updateDepartment_store s f code newName newLocation with h | ⟨_, _, h⟩ <;> rw [h]
  · rcases updateDepartment_store s f code newName newLocation with h | ⟨_, _, h⟩ <;> rw [h]
  · rcases updateDepartment_store s f code newName newLocation with h | ⟨_, _, h⟩
    · rw [h]; exact h
    · rw [h]; exact updateDepartment_after_update s f code newName newLocation
  · intro f2
    rw [hnone]
    exact updateDepartment_after_update s f2 code newName newLocation
  · intro r hr hc
    rw [hnone] at hr
    simp only [List.mem_map] at hr
    obtain ⟨r0, _, h0⟩ := hr
    by_cases hc0 : r0.code = code
    · simp only [hc0, if_true] at h0
      rw [← h0]
      exact ⟨rfl, rfl⟩
    · simp only [hc0, if_false] at h0
      rw [h0] at hc0
      exact absurd hc hc0
  · rintro ⟨r, hr, hc⟩
    rw [hnone]
    refine ⟨{ r with name := newName, location := newLocation }, ?_, hc, rfl, rfl⟩
    simp only [List.mem_map]
    exact ⟨r, hr, by simp [hc]⟩

/-- Witness of `updateDepartment_preserves_and_idempotent`: updating department 1 of two
rewrites that row, keeps department 2, and a second identical call changes nothing. -/
theorem updateDepartment_preserves_and_idempotent_witness :
    (∃ r ∈ (Store.mk [⟨1, "Engineering", "Building A"⟩, ⟨2, "Sales", "Building C"⟩]
              2 false []).rows, r.code = 1)
    ∧ (∃ r ∈ (updateDepartment
          (Store.mk [⟨1, "Engineering", "Building A"⟩, ⟨2, "Sales", "Building C"⟩] 2 false [])
          Faults.none 1 "Eng" "Bldg B").1.rows,
        r.code = 1 ∧ r.name = "Eng" ∧ r.location = "Bldg B")
    ∧ (updateDepartment
          (Store.mk [⟨1, "Engineering", "Building A"⟩, ⟨2, "Sales", "Building C"⟩] 2 false [])
          Faults.none 1 "Eng" "Bldg B").1.rows[1]? = some ⟨2, "Sales", "Building C"⟩ :=
  ⟨⟨⟨1, "Engineering", "Building A"⟩, by simp, rfl⟩,
   (updateDepartment_preserves_and_idempotent
      (Store.mk [⟨1, "Engineering", "Building A"⟩, ⟨2, "Sales", "Building C"⟩] 2 false [])
      Faults.none 1 "Eng" "Bldg B").2.2.2.2.2.2.2.2
      ⟨⟨1, "Engineering", "Building A"⟩, by simp, rfl⟩,
   (updateDepartment_preserves_and_idempotent
      (Store.mk [⟨1, "Engineering", "Building A"⟩, ⟨2, "Sales", "Building C"⟩] 2 false [])
      Faults.none 1 "Eng" "Bldg B").2.1 1 ⟨2, "Sales", "Building C"⟩ rfl (by decide)⟩

/-- C9: with an engine that does not fail, `retrieveDepartmentByCode(code)` reports a row of
the table whose code is `code`, with the argument as code and the stored name and
location of that row, when the table has such a row (that row being the only candidate
when codes are unique), and reports "No department with that code found in the
database." on `cout`, not the error message, when no row has that code; whatever the
engine does, the store is left as it was. -/
theorem retrieveDepartmentByCode_found_or_notFound (s : Store) (code : Int) :
    ((∃ r ∈ s.rows, r.code = code) →
        ∃ r ∈ s.rows, r.code = code ∧
          retrieveDepartmentByCode s Faults.none code
            = (s, [Msg.department code r.name r.location]))
    ∧ (∀ r ∈ s.rows, r.code = code → (∀ r2 ∈ s.rows, r2.code = code → r2 = r) →
        retrieveDepartmentByCode s Faults.none code
          = (s, [Msg.department r.code r.name r.location]))
    ∧ ((∀ r ∈ s.rows, r.code ≠ code) →
        retrieveDepartmentByCode s Faults.none code = (s, [Msg.notFound]))
    ∧ (∀ f : Faults, (retrieveDepartmentByCode s f code).1 = s)
    ∧ Msg.notFound.stream = Stream.cout
    ∧ Msg.notFound ≠ Msg.errorPreparing
    ∧ Msg.notFound.text ≠ Msg.errorPreparing.text := by
  have hfound : (∃ r ∈ s.rows, r.code = code) →
      ∃ r ∈ s.rows, r.code = code ∧
        retrieveDepartmentByCode s Faults.none code
          = (s, [Msg.department code r.name r.location]) := by
    rintro ⟨r, hr, hc⟩
    rw [retrieveDepartmentByCode_none]
    cases hfind : s.rows.find? (fun r => decide (r.code = code)) with
    | none =>
      rw [List.find?_eq_none] at hfind
      exact absurd hc (by simpa using hfind r hr)
    | some row =>
      refine ⟨row, List.mem_of_find?_eq_some hfind, ?_, rfl⟩
      simpa using List.find?_some hfind
  refine ⟨hfound, ?_, ?_, fun f => retrieveDepartmentByCode_store s f code, rfl,
    by decide, by decide⟩
  · intro r hr hc huniq
    obtain ⟨r1, hr1, hc1, hout⟩ := hfound ⟨r, hr, hc⟩
    rw [hout, ← huniq r1 hr1 hc1, hc1]
  · intro hno
    rw [retrieveDepartmentByCode_none]
    have hnone : s.rows.find? (fun r => decide (r.code = code)) = Option.none := by
      rw [List.find?_eq_none]
      intro r hr
      simpa using hno r hr
    rw [hnone]

/-- Witness of `retrieveDepartmentByCode_found_or_notFound`: code 1 is found, code 9999 is
not. -/
theorem retrieveDepartmentByCode_found_or_notFound_witness :
    (∀ r ∈ (Store.mk [⟨1, "Engineering", "Building A"⟩] 1 false []).rows, r.code ≠ 9999)
    ∧ retrieveDepartmentByCode (Store.mk [⟨1, "Engineering", "Building A"⟩] 1 false [])
        Faults.none 9999
      = (Store.mk [⟨1, "Engineering", "Building A"⟩] 1 false [], [Msg.notFound])
    ∧ retrieveDepartmentByCode (Store.mk [⟨1, "Engineering", "Building A"⟩] 1 false [])
        Faults.none 1
      = (Store.mk [⟨1, "Engineering", "Building A"⟩] 1 false [],
          [Msg.department 1 "Engineering" "Building A"]) :=
  ⟨by simp,
   (retrieveDepartmentByCode_found_or_notFound
      (Store.mk [⟨1, "Engineering", "Building A"⟩] 1 false []) 9999).2.2.1 (by simp),
   (retrieveDepartmentByCode_found_or_notFound
      (Store.mk [⟨1, "Engineering", "Building A"⟩] 1 false []) 1).2.1
      ⟨1, "Engineering", "Building A"⟩ (by simp) rfl (by simp)⟩

theorem menuLoop_eq (toks : List Tok) (s : Store) (fs : List Faults) :
    menuLoop toks s fs =
      match extractInt toks with
      | Option.none => Option.none
      | some (option, rest) =>
        if option = 0 then some (menuEvents ++ [Event.print Msg.exiting], s)
        else if option = 1 then
          match extractString rest with
          | Option.none => Option.none
          | some (name, rest1) =>
            match extractString rest1 with
            | Option.none => Option.none
            | some (location, rest2) =>
              andThen (case1 s fs name location)
                (menuLoop rest2 (case1 s fs name location).2.1 (case1 s fs name location).2.2)
        else if option = 2 then
          andThen (case2 s fs) (menuLoop rest (case2 s fs).2.1 (case2 s fs).2.2)
        else if option = 3 then
          match extractInt rest with
          | Option.none => Option.none
          | some (code, rest1) =>
            andThen (case3 s fs code)
              (menuLoop rest1 (case3 s fs code).2.1 (case3 s fs code).2.2)
        else if option = 4 then
          match extractInt rest with
          | Option.none => Option.none
          | some (code, rest1) =>
            match extractString rest1 with
            | Option.none => Option.none
            | some (newName, rest2) =>
              match extractString rest2 with
              | Option.none => Option.none
              | some (newLocation, rest3) =>
                andThen (case4 s fs code newName newLocation)
                  (menuLoop rest3 (case4 s fs code newName newLocation).2.1
                    (case4 s fs code newName newLocation).2.2)
        else if option = 5 then
          match extractInt rest with
          | Option.none => Option.none
          | some (code, rest1) =>
            andThen (case5 s fs code)
              (menuLoop rest1 (case5 s fs code).2.1 (case5 s fs code).2.2)
        else
          andThen ([Event.print Msg.rangeError], s, fs) (menuLoop rest s fs) := by
  rw [menuLoop]
  split
  · simp [*]
  · rename_i option rest h
    simp only [h]
    repeat' split
    all_goals first | rfl | simp_all

theorem andThen_eq_some (r : List Event × Store × List Faults)
    (x : Option (List Event × Store)) (t : List Event × Store) :
    andThen r x = some t ↔ ∃ u, x = some u ∧ t = (menuEvents ++ r.1 ++ u.1, u.2) := by
  cases x with
  | none => simp [andThen]
  | some u => simp [andThen, eq_comm]

/-- One well-formed selection takes the loop through its branch and on to the rest of the
input. -/
theorem menuLoop_cmd (c : Cmd) (hc : c.ok) (tl : List Tok) (s : Store) (fs : List Faults) :
    menuLoop (c.tokens ++ tl) s fs
      = andThen (c.step s fs) (menuLoop tl (c.step s fs).2.1 (c.step s fs).2.2) := by
  rw [menuLoop_eq]
  cases c with
  | insert name location =>
    simp [Cmd.tokens, Cmd.step, extractInt, extractString, inRange]
  | retrieveAll => simp [Cmd.tokens, Cmd.step, extractInt, inRange]
  | retrieveByCode code =>
    have h : inRange code := hc
    simp [Cmd.tokens, Cmd.step, extractInt, inRange, h.1, h.2]
  | update code newName newLocation =>
    have h : inRange code := hc
    simp [Cmd.tokens, Cmd.step, extractInt, extractString, inRange, h.1, h.2]
  | delete code =>
    have h : inRange code := hc
    simp [Cmd.tokens, Cmd.step, extractInt, inRange, h.1, h.2]
  | other option =>
    have h : inRange option ∧ (option < 0 ∨ 5 < option) := hc
    have h0 : option ≠ 0 := by omega
    have h1 : option ≠ 1 := by omega
    have h2 : option ≠ 2 := by omega
    have h3 : option ≠ 3 := by omega
    have h4 : option ≠ 4 := by omega
    have h5 : option ≠ 5 := by omega
    simp [Cmd.tokens, Cmd.step, extractInt, h.1, h0, h1, h2, h3, h4, h5]

theorem menuLoop_zero (rest : List Tok) (s : Store) (fs : List Faults) :
    menuLoop (Tok.int 0 :: rest) s fs = some (menuEvents ++ [Event.print Msg.exiting], s) := by
  rw [menuLoop_eq]
  simp [extractInt, inRange]

/-- The loop on a sequence of well-formed selections followed by option 0. -/
theorem menuLoop_cmds (cs : List Cmd) (hok : ∀ c ∈ cs, c.ok) (rest : List Tok) (s : Store)
    (fs : List Faults) :
    menuLoop (tokensOf cs ++ Tok.int 0 :: rest) s fs
      = some ((runCmds cs s fs).1 ++ (menuEvents ++ [Event.print Msg.exiting]),
              (runCmds cs s fs).2.1) := by
  induction cs generalizing s fs with
  | nil => simp [tokensOf, runCmds, menuLoop_zero]
  | cons c cs ih =>
    have hc : c.ok := hok c (by simp)
    have hcs : ∀ d ∈ cs, d.ok := fun d hd => hok d (by simp [hd])
    simp only [tokensOf, List.append_assoc]
    rw [menuLoop_cmd c hc, ih hcs]
    simp [andThen, runCmds]

/-- Without a selection of option 0 the loop does not end. -/
theorem menuLoop_without_zero (cs : List Cmd) (hok : ∀ c ∈ cs, c.ok) (s : Store)
    (fs : List Faults) : menuLoop (tokensOf cs) s fs = Option.none := by
  induction cs generalizing s fs with
  | nil => rw [menuLoop_eq]; simp [tokensOf, extractInt]
  | cons c cs ih =>
    have hc : c.ok := hok c (by simp)
    have hcs : ∀ d ∈ cs, d.ok := fun d hd => hok d (by simp [hd])
    have h := menuLoop_cmd c hc (tokensOf cs) s fs
    simp only [tokensOf]
    rw [h, ih hcs]
    rfl

/-! ## The connection -/

theorem close_not_mem_menuEvents : Event.sqlite3_close ∉ menuEvents := by decide

theorem close_not_mem_case1 (s : Store) (fs : List Faults) (n l : String) :
    Event.sqlite3_close ∉ (case1 s fs n l).1 := by
  simp [case1]

theorem close_not_mem_case2 (s : Store) (fs : List Faults) :
    Event.sqlite3_close ∉ (case2 s fs).1 := by
  simp [case2]

theorem close_not_mem_case3 (s : Store) (fs : List Faults) (c : Int) :
    Event.sqlite3_close ∉ (case3 s fs c).1 := by
  simp [case3]

theorem close_not_mem_case4 (s : Store) (fs : List Faults) (c : Int) (n l : String) :
    Event.sqlite3_close ∉ (case4 s fs c n l).1 := by
  simp [case4]

theorem close_not_mem_case5 (s : Store) (fs : List Faults) (c : Int) :
    Event.sqlite3_close ∉ (case5 s fs c).1 := by
  simp [case5]

theorem close_not_mem_andThen (r : List Event × Store × List Faults)
    (x : Option (List Event × Store)) (t : List Event × Store)
    (hr : Event.sqlite3_close ∉ r.1)
    (hx : ∀ u, x = some u → Event.sqlite3_close ∉ u.1)
    (h : andThen r x = some t) : Event.sqlite3_close ∉ t.1 := by
  obtain ⟨u, hu, rfl⟩ := (andThen_eq_some r x t).mp h
  simp only [List.mem_append, not_or]
  exact ⟨⟨close_not_mem_menuEvents, hr⟩, hx u hu⟩

/-- The loop never closes the connection. -/
theorem menuLoop_no_close (toks : List Tok) (s : Store) (fs : List Faults) :
    ∀ r, menuLoop toks s fs = some r → Event.sqlite3_close ∉ r.1 := by
  induction toks, s, fs using menuLoop.induct <;> intro r hr <;> rw [menuLoop_eq] at hr <;>
    simp [*] at hr
  all_goals first
    | (subst hr; simp [menuEvents])
    | (apply close_not_mem_andThen _ _ _ _ _ hr
       · first
         | exact close_not_mem_case1 _ _ _ _
         | exact close_not_mem_case2 _ _
         | exact close_not_mem_case3 _ _ _
         | exact close_not_mem_case4 _ _ _ _ _
         | exact close_not_mem_case5 _ _ _
         | simp
       · assumption)

/-- When `main` returns, the connection has been closed exactly once, by the last event of
the run. -/
theorem main_returned_closes_once (env : Env) (r : Run) (status : Int)
    (h : main env = some r) (hexit : r.exit = Exit.returned status) :
    r.events.count Event.sqlite3_close = 1
      ∧ r.events.getLast? = some Event.sqlite3_close := by
  unfold main at h
  have hc : (construct env).1 = [Event.sqlite3_open, Event.print Msg.errorOpening]
      ∨ (construct env).1
          = [Event.sqlite3_open, Event.sqlite3_exec, Event.print Msg.errorCreatingTable]
      ∨ (construct env).1 = [Event.sqlite3_open, Event.sqlite3_exec] := by
    unfold construct
    split
    · left; rfl
    · split
      · right; left; rfl
      · right; right; rfl
  cases hcon : construct env with
  | mk evs res =>
    rw [hcon] at h hc
    cases res with
    | error what =>
      simp only [Option.some.injEq] at h
      rw [← h] at hexit
      simp at hexit
    | ok store =>
      simp only at h
      cases hloop : menuLoop env.input store env.faults with
      | none => rw [hloop] at h; simp at h
      | some t =>
        rw [hloop] at h
        simp only [Option.some.injEq] at h
        have hno := menuLoop_no_close env.input store env.faults t hloop
        have hevs : Event.sqlite3_close ∉ evs := by
          simp only at hc
          rcases hc with hc | hc | hc <;> rw [hc] <;> decide
        rw [← h]
        constructor
        · simp only [destruct, List.count_append, List.count_eq_zero_of_not_mem hevs,
            List.count_eq_zero_of_not_mem hno]
          rfl
        · simp [destruct]

/-- C6, what the code does: when `CREATE TABLE` fails after `sqlite3_open` succeeded, the
constructor throws, the exception ends the program, and `sqlite3_close` is never called,
although the connection is open; the same holds when `sqlite3_open` itself fails.  Only a
run in which `main` returns closes the connection, exactly once and as its last event. -/
theorem main_init_failure_never_closes (file : Option Store) (faults : List Faults)
    (input : List Tok) (e : EngineError) (createError : Option EngineError) :
    main ⟨file, Option.none, some e, faults, input⟩
        = some ⟨Exit.uncaught "Failed to create the \x27department\x27 table.",
            [Event.sqlite3_open, Event.sqlite3_exec, Event.print Msg.errorCreatingTable]⟩
    ∧ List.count Event.sqlite3_close
        [Event.sqlite3_open, Event.sqlite3_exec, Event.print Msg.errorCreatingTable] = 0
    ∧ main ⟨file, some e, createError, faults, input⟩
        = some ⟨Exit.uncaught "Failed to open the database.",
            [Event.sqlite3_open, Event.print Msg.errorOpening]⟩
    ∧ List.count Event.sqlite3_close [Event.sqlite3_open, Event.print Msg.errorOpening] = 0
    ∧ (∀ (env : Env) (r : Run) (status : Int), main env = some r →
        r.exit = Exit.returned status →
        r.events.count Event.sqlite3_close = 1
          ∧ r.events.getLast? = some Event.sqlite3_close) := by
  refine ⟨?_, by decide, ?_, by decide, main_returned_closes_once⟩
  · simp [main, construct, sqlite3_open, sqlite3_exec, EngineError.code_ne_ok]
  · simp [main, construct, sqlite3_open, EngineError.code_ne_ok]

/-- Witness of `main_init_failure_never_closes`: `personal.db` is not a database file, so
that `sqlite3_open` succeeds and `CREATE TABLE` fails with `SQLITE_NOTADB`; and a run that
returns after option 0. -/
theorem main_init_failure_never_closes_witness :
    main ⟨Option.none, Option.none, some EngineError.notadb, [], [Tok.int 0]⟩
        = some ⟨Exit.uncaught "Failed to create the \x27department\x27 table.",
            [Event.sqlite3_open, Event.sqlite3_exec, Event.print Msg.errorCreatingTable]⟩
    ∧ List.count Event.sqlite3_close
        [Event.sqlite3_open, Event.sqlite3_exec, Event.print Msg.errorCreatingTable] = 0 :=
  ⟨(main_init_failure_never_closes Option.none [] [Tok.int 0] EngineError.notadb
      Option.none).1,
   (main_init_failure_never_closes Option.none [] [Tok.int 0] EngineError.notadb
      Option.none).2.1⟩

/-! ## The menu loop -/

/-- C10: when the database opens and the table is created, on every input that consists of
well-formed selections other than 0 (each with the items its prompts read), then option
0, then anything, and whatever failures the engine injects in the member functions
called, `main` goes through exactly the selections before the first option 0, writes
"Exiting the program." and returns status 0; without an option 0 after the selections the
loop does not end; and a selection outside 0..5 writes the menu and
"Menu option must be between 0 and 5.", events none of which is a call of a member
function, and the loop goes on with the same store and the rest of the input. -/
theorem main_stops_at_first_zero (env : Env) (cs : List Cmd) (rest : List Tok)
    (hopen : env.openError = Option.none) (hcreate : env.createError = Option.none)
    (hok : ∀ c ∈ cs, c.ok) (hin : env.input = tokensOf cs ++ Tok.int 0 :: rest) :
    main env = some ⟨Exit.returned 0,
        [Event.sqlite3_open, Event.sqlite3_exec]
          ++ ((runCmds cs (env.file.getD ⟨[], 0, false, []⟩) env.faults).1
              ++ (menuEvents ++ [Event.print Msg.exiting]))
          ++ [Event.sqlite3_close]⟩
    ∧ (∀ (s : Store) (fs : List Faults), menuLoop (tokensOf cs) s fs = Option.none)
    ∧ (∀ (option : Int) (tl : List Tok) (s : Store) (fs : List Faults),
        inRange option → (option < 0 ∨ 5 < option) →
        menuLoop (Tok.int option :: tl) s fs
          = (menuLoop tl s fs).map
              (fun t => (menuEvents ++ [Event.print Msg.rangeError] ++ t.1, t.2)))
    ∧ (∀ e ∈ menuEvents ++ [Event.print Msg.rangeError], Event.isOperation e = false) := by
  refine ⟨?_, fun s fs => menuLoop_without_zero cs hok s fs, ?_, by decide⟩
  · have hcon : construct env
        = ([Event.sqlite3_open, Event.sqlite3_exec],
            Except.ok (env.file.getD ⟨[], 0, false, []⟩)) := by
      simp [construct, sqlite3_open, sqlite3_exec, hopen, hcreate]
    unfold main
    rw [hcon]
    simp only [hin]
    rw [menuLoop_cmds cs hok rest]
    rfl
  · intro option tl s fs hr ho
    exact menuLoop_cmd (Cmd.other option) ⟨hr, ho⟩ tl s fs

/-- Witness of `main_stops_at_first_zero`: option 7, then option 2 while the engine fails to
prepare the statement, then option 0; the item after the 0 is not read. -/
theorem main_stops_at_first_zero_witness :
    main ⟨Option.none, Option.none, Option.none, [⟨some EngineError.busy, Option.none⟩],
          [Tok.int 7, Tok.int 2, Tok.int 0, Tok.int 2]⟩
      = some ⟨Exit.returned 0,
          [Event.sqlite3_open, Event.sqlite3_exec]
            ++ (menuEvents ++ [Event.print Msg.rangeError]
                ++ (menuEvents ++ [Event.retrieveAllDepartments,
                      Event.print Msg.errorPreparing]
                ++ (menuEvents ++ [Event.print Msg.exiting])))
            ++ [Event.sqlite3_close]⟩ :=
  (main_stops_at_first_zero
    ⟨Option.none, Option.none, Option.none, [⟨some EngineError.busy, Option.none⟩],
      [Tok.int 7, Tok.int 2, Tok.int 0, Tok.int 2]⟩
    [Cmd.other 7, Cmd.retrieveAll] [Tok.int 2] rfl rfl (by decide) rfl).1

end DepartmentDatabase
